import Mathlib

/-!
Verification of the netbox-docker configuration module
(src/configuration/configuration.py), shallowly embedded in Lean 4.

The module resolves application settings from three sources, in order:
Docker secret files under a fixed directory, environment variables, and
hardcoded defaults.  We model the process environment and the secret
store as explicit finite maps (total functions to Option String), and
Python exceptions (ValueError from int(), AttributeError from calling a
string method on a non-string) with the Except monad.  Python values
that can flow through the helpers (None, str, int, bool, list) are
modelled with the PyVal type.
-/

/-- The process environment: variable name to value, none when unset. -/
abbrev Env := String → Option String

/-- The secret store: secret name to the full content of the file at
/run/secrets/<name>, none when the file is missing or unreadable. -/
abbrev Secrets := String → Option String

/-- A Python value as it can appear in this module: None, a string, an
int, a bool, or a list of strings. -/
inductive PyVal where
  | vnone : PyVal
  | vstr : String → PyVal
  | vint : Int → PyVal
  | vbool : Bool → PyVal
  | vlist : List String → PyVal
deriving DecidableEq, Repr

deriving instance DecidableEq for Except

/-- The whitespace characters stripped by Python str.strip with no
argument (restricted to the ASCII range, which covers every value this
module handles): space, tab, newline, carriage return, vertical tab,
form feed. -/
def isPySpace (c : Char) : Bool :=
  c = ' ' || c = '\t' || c = '\n' || c = '\r' || c = Char.ofNat 11 || c = Char.ofNat 12

/-- Python str.strip with no argument: drop leading and trailing
whitespace. -/
def stripList (l : List Char) : List Char :=
  ((l.dropWhile isPySpace).reverse.dropWhile isPySpace).reverse

/-- Python str.strip on strings. -/
def pyStrip (s : String) : String := ⟨stripList s.data⟩

/-- Python file.readline on a file content: the first line, including
its trailing newline when present. -/
def readlineList : List Char → List Char
  | [] => []
  | c :: cs => if c = '\n' then [c] else c :: readlineList cs

/-- Python file.readline on strings. -/
def readline (s : String) : String := ⟨readlineList s.data⟩

/-- ASCII lowercasing of a character, as Python str.lower does on the
ASCII range (the only range relevant to the boolean settings). -/
def asciiLower (c : Char) : Char :=
  if 'A' ≤ c ∧ c ≤ 'Z' then Char.ofNat (c.toNat + 32) else c

/-- Python str.lower restricted to ASCII. -/
def pyLower (s : String) : String := ⟨s.data.map asciiLower⟩

/-- One decimal digit, or none. -/
def digitVal (c : Char) : Option Nat :=
  if '0' ≤ c ∧ c ≤ '9' then some (c.toNat - '0'.toNat) else none

/-- Accumulate decimal digits; fails on the first non-digit. -/
def digitsToNatAux : List Char → Nat → Option Nat
  | [], acc => some acc
  | c :: cs, acc =>
    match digitVal c with
    | some d => digitsToNatAux cs (acc * 10 + d)
    | none => none

/-- A non-empty, all-digit character list as a Nat; none otherwise. -/
def digitsToNat : List Char → Option Nat
  | [] => none
  | l => digitsToNatAux l 0

/-- Python int(s) on a string: strip whitespace, optional sign, decimal
digits; none models the ValueError raised on any other input. -/
def pyParseInt (s : String) : Option Int :=
  match stripList s.data with
  | '+' :: rest => (digitsToNat rest).map (fun n => (n : Int))
  | '-' :: rest => (digitsToNat rest).map (fun n => -(n : Int))
  | l => (digitsToNat l).map (fun n => (n : Int))

/-- Python truthiness of a PyVal, as used by the bare if statements
guarding the conditional settings. -/
def pyTruthy : PyVal → Bool
  | .vnone => false
  | .vstr s => s != ""
  | .vint n => n != 0
  | .vbool b => b
  | .vlist l => !l.isEmpty

/-- environ.get(name, default) with a string default. -/
def environGetS (env : Env) (name : String) (default : String) : String :=
  (env name).getD default

/-- environ.get(name, default) with an arbitrary Python default; a set
variable always yields a string. -/
def environGetV (env : Env) (name : String) (default : PyVal) : PyVal :=
  match env name with
  | some v => .vstr v
  | none => default

/-- The helper _read_secret of configuration.py: open
/run/secrets/<secret_name>; on failure return the default unchanged,
otherwise the first line of the file stripped with str.strip. -/
def _read_secret (secrets : Secrets) (secret_name : String)
    (default : Option String := none) : Option String :=
  match secrets secret_name with
  | none => default
  | some content => some (pyStrip (readline content))

/-- The helper _environ_get_and_map of configuration.py: read the
variable with environ.get(name, default); if the result is None return
it directly; if no map function was supplied return it unchanged;
otherwise apply the map function (which may raise). -/
def _environ_get_and_map (env : Env) (variable_name : String)
    (default : PyVal := .vnone)
    (map_fn : Option (PyVal → Except String PyVal) := none) :
    Except String PyVal :=
  let env_value := environGetV env variable_name default
  if env_value = .vnone then
    .ok env_value
  else
    match map_fn with
    | none => .ok env_value
    | some f => f env_value

/-- The transform _EQUALS_TRUE on the string it receives:
value.lower() == the lowercase word true. -/
def _EQUALS_TRUE (value : String) : Bool := pyLower value == "true"

/-- Python value.split with a single space separator, on character
lists: every space ends a piece, adjacent spaces give empty pieces, and
the empty input gives one empty piece. -/
def splitOnSpaceList : List Char → List (List Char)
  | [] => [[]]
  | c :: cs =>
    if c = ' ' then [] :: splitOnSpaceList cs
    else
      match splitOnSpaceList cs with
      | [] => [[c]]
      | p :: ps => (c :: p) :: ps

/-- Python value.split with a single space separator, on strings. -/
def pySplitOnSpace (value : String) : List String :=
  (splitOnSpaceList value.data).map (fun l => ⟨l⟩)

/-- The transform _SPLIT_ON_SPACE: split on single spaces and keep the
non-empty pieces, as list(filter(None, value.split(" "))). -/
def _SPLIT_ON_SPACE (value : String) : List String :=
  (pySplitOnSpace value).filter (fun t => t != "")

/-- _AS_INT lifted to PyVal: int() on a string parses or raises
ValueError; on an int it is the identity; on a bool it gives 0 or 1;
on None or a list it raises TypeError. -/
def _AS_INT : PyVal → Except String PyVal
  | .vstr s =>
    match pyParseInt s with
    | some n => .ok (.vint n)
    | none => .error "ValueError"
  | .vint n => .ok (.vint n)
  | .vbool b => .ok (.vint (if b then 1 else 0))
  | _ => .error "TypeError"

/-- _EQUALS_TRUE lifted to PyVal: calling .lower on a non-string raises
AttributeError. -/
def _EQUALS_TRUE_T : PyVal → Except String PyVal
  | .vstr s => .ok (.vbool ( _EQUALS_TRUE s))
  | _ => .error "AttributeError"

/-- _SPLIT_ON_SPACE lifted to PyVal. -/
def _SPLIT_ON_SPACE_T : PyVal → Except String PyVal
  | .vstr s => .ok (.vlist ( _SPLIT_ON_SPACE s))
  | _ => .error "AttributeError"

/-- The DATABASE setting of configuration.py, with the OPTIONS mapping
inlined as its single sslmode entry. -/
structure DbRec where
  NAME : String
  USER : String
  PASSWORD : Option String
  HOST : String
  PORT : String
  SSLMODE : String
  CONN_MAX_AGE : PyVal
  DISABLE_SERVER_SIDE_CURSORS : PyVal
deriving DecidableEq, Repr

/-- The PASSWORD entry of DATABASE:
_read_secret of db_password with environ.get of DB_PASSWORD (default
the empty string) as fallback. -/
def dbPassword (secrets : Secrets) (env : Env) : Option String :=
  _read_secret secrets "db_password" (some (environGetS env "DB_PASSWORD" ""))

/-- The HOST entry of DATABASE: environ.get of DB_HOST, default
localhost. -/
def dbHost (env : Env) : String := environGetS env "DB_HOST" "localhost"

/-- The DATABASE dict literal, evaluated left to right; a ValueError
from _AS_INT aborts the whole resolution. -/
def DATABASE (secrets : Secrets) (env : Env) : Except String DbRec := do
  let conn_max_age ← _environ_get_and_map env "DB_CONN_MAX_AGE" (.vstr "300") (some _AS_INT)
  let dssc ← _environ_get_and_map env "DB_DISABLE_SERVER_SIDE_CURSORS" (.vstr "False") (some _EQUALS_TRUE_T)
  .ok
    { NAME := environGetS env "DB_NAME" "netbox"
      USER := environGetS env "DB_USER" ""
      PASSWORD := dbPassword secrets env
      HOST := dbHost env
      PORT := environGetS env "DB_PORT" ""
      SSLMODE := environGetS env "DB_SSLMODE" "prefer"
      CONN_MAX_AGE := conn_max_age
      DISABLE_SERVER_SIDE_CURSORS := dssc }

/-- One Redis connection profile of the REDIS setting. -/
structure RedisRec where
  HOST : String
  PORT : PyVal
  PASSWORD : Option String
  DATABASE : PyVal
  SSL : PyVal
  INSECURE_SKIP_TLS_VERIFY : PyVal
deriving DecidableEq, Repr

/-- The REDIS setting: a tasks profile and a caching profile. -/
structure RedisCfg where
  tasks : RedisRec
  caching : RedisRec
deriving DecidableEq, Repr

/-- The DATABASE entry of the tasks profile: REDIS_DATABASE with the
integer default 0, mapped through _AS_INT. -/
def redisTasksDatabase (env : Env) : Except String PyVal :=
  _environ_get_and_map env "REDIS_DATABASE" (.vint 0) (some _AS_INT)

/-- The DATABASE entry of the caching profile: REDIS_CACHE_DATABASE
with the string default 1, mapped through _AS_INT. -/
def redisCachingDatabase (env : Env) : Except String PyVal :=
  _environ_get_and_map env "REDIS_CACHE_DATABASE" (.vstr "1") (some _AS_INT)

/-- The REDIS dict literal: the tasks profile is evaluated before the
caching profile, each entry left to right. -/
def REDIS (secrets : Secrets) (env : Env) : Except String RedisCfg := do
  let tasksPort ← _environ_get_and_map env "REDIS_PORT" (.vint 6379) (some _AS_INT)
  let tasksDb ← redisTasksDatabase env
  let tasksSsl ← _environ_get_and_map env "REDIS_SSL" (.vstr "False") (some _EQUALS_TRUE_T)
  let tasksSkip ← _environ_get_and_map env "REDIS_INSECURE_SKIP_TLS_VERIFY" (.vstr "False") (some _EQUALS_TRUE_T)
  let cachePort ← _environ_get_and_map env "REDIS_CACHE_PORT" (.vstr (environGetS env "REDIS_PORT" "6379")) (some _AS_INT)
  let cacheDb ← redisCachingDatabase env
  let cacheSsl ← _environ_get_and_map env "REDIS_CACHE_SSL" (.vstr (environGetS env "REDIS_SSL" "False")) (some _EQUALS_TRUE_T)
  let cacheSkip ← _environ_get_and_map env "REDIS_CACHE_INSECURE_SKIP_TLS_VERIFY" (.vstr (environGetS env "REDIS_INSECURE_SKIP_TLS_VERIFY" "False")) (some _EQUALS_TRUE_T)
  .ok
    { tasks :=
        { HOST := environGetS env "REDIS_HOST" "redis"
          PORT := tasksPort
          PASSWORD := _read_secret secrets "redis_password" (some (environGetS env "REDIS_PASSWORD" ""))
          DATABASE := tasksDb
          SSL := tasksSsl
          INSECURE_SKIP_TLS_VERIFY := tasksSkip }
      caching :=
        { HOST := environGetS env "REDIS_CACHE_HOST" (environGetS env "REDIS_HOST" "redis")
          PORT := cachePort
          PASSWORD := _read_secret secrets "redis_cache_password" (some (environGetS env "REDIS_CACHE_PASSWORD" (environGetS env "REDIS_PASSWORD" "")))
          DATABASE := cacheDb
          SSL := cacheSsl
          INSECURE_SKIP_TLS_VERIFY := cacheSkip } }

/-- The EMAIL setting of configuration.py. -/
structure EmailRec where
  SERVER : String
  PORT : PyVal
  USERNAME : String
  PASSWORD : Option String
  USE_SSL : PyVal
  USE_TLS : PyVal
  SSL_CERTFILE : String
  SSL_KEYFILE : String
  TIMEOUT : PyVal
  FROM_EMAIL : String
deriving DecidableEq, Repr

/-- The EMAIL dict literal, evaluated left to right. -/
def EMAIL (secrets : Secrets) (env : Env) : Except String EmailRec := do
  let port ← _environ_get_and_map env "EMAIL_PORT" (.vint 25) (some _AS_INT)
  let use_ssl ← _environ_get_and_map env "EMAIL_USE_SSL" (.vstr "False") (some _EQUALS_TRUE_T)
  let use_tls ← _environ_get_and_map env "EMAIL_USE_TLS" (.vstr "False") (some _EQUALS_TRUE_T)
  let timeout ← _environ_get_and_map env "EMAIL_TIMEOUT" (.vint 10) (some _AS_INT)
  .ok
    { SERVER := environGetS env "EMAIL_SERVER" "localhost"
      PORT := port
      USERNAME := environGetS env "EMAIL_USERNAME" ""
      PASSWORD := _read_secret secrets "email_password" (some (environGetS env "EMAIL_PASSWORD" ""))
      USE_SSL := use_ssl
      USE_TLS := use_tls
      SSL_CERTFILE := environGetS env "EMAIL_SSL_CERTFILE" ""
      SSL_KEYFILE := environGetS env "EMAIL_SSL_KEYFILE" ""
      TIMEOUT := timeout
      FROM_EMAIL := environGetS env "EMAIL_FROM" "" }

/-- The LOGIN_TIMEOUT setting: integer default 1209600, via _AS_INT. -/
def LOGIN_TIMEOUT (env : Env) : Except String PyVal :=
  _environ_get_and_map env "LOGIN_TIMEOUT" (.vint 1209600) (some _AS_INT)

/-- The bare if guarding each conditional setting: the setting is
assigned (some) only when the computed value is truthy. -/
def condAssign (v : PyVal) : Option PyVal :=
  if pyTruthy v then some v else none

/-- CHANGELOG_RETENTION: computed with default None through _AS_INT,
then assigned only when truthy; none models the name staying unset so
the framework default applies. -/
def CHANGELOG_RETENTION (env : Env) : Except String (Option PyVal) := do
  let v ← _environ_get_and_map env "CHANGELOG_RETENTION" .vnone (some _AS_INT)
  .ok (condAssign v)

/-- MAINTENANCE_MODE: default None through _EQUALS_TRUE, then assigned
only when truthy. -/
def MAINTENANCE_MODE (env : Env) : Except String (Option PyVal) := do
  let v ← _environ_get_and_map env "MAINTENANCE_MODE" .vnone (some _EQUALS_TRUE_T)
  .ok (condAssign v)

/-- MAX_PAGE_SIZE: default None through _AS_INT, then assigned only
when truthy. -/
def MAX_PAGE_SIZE (env : Env) : Except String (Option PyVal) := do
  let v ← _environ_get_and_map env "MAX_PAGE_SIZE" .vnone (some _AS_INT)
  .ok (condAssign v)

/-- GRAPHQL_ENABLED: default None through _EQUALS_TRUE, then assigned
only when truthy. -/
def GRAPHQL_ENABLED (env : Env) : Except String (Option PyVal) := do
  let v ← _environ_get_and_map env "GRAPHQL_ENABLED" .vnone (some _EQUALS_TRUE_T)
  .ok (condAssign v)

/-- An environment with no variable set. -/
def emptyEnv : Env := fun _ => none

/-- A secret store with no secret file present. -/
def noSecrets : Secrets := fun _ => none

/-- The database settings the source resolves when nothing is set. -/
def dbDefaults : DbRec :=
  { NAME := "netbox"
    USER := ""
    PASSWORD := some ""
    HOST := "localhost"
    PORT := ""
    SSLMODE := "prefer"
    CONN_MAX_AGE := .vint 300
    DISABLE_SERVER_SIDE_CURSORS := .vbool false }

/-- A secret store holding one db_password file whose first line
carries leading whitespace. -/
def cexSecrets : Secrets :=
  fun n => if n = "db_password" then some " x\n" else none

/-- An environment with a competing DB_PASSWORD value. -/
def cexEnv : Env :=
  fun n => if n = "DB_PASSWORD" then some "envpw" else none

/-- Modelled from the spec: stripping only trailing whitespace, the
reading of the spec sentence "the first line with trailing
whitespace/newline stripped"; compared against the both-sided
str.strip the source performs. -/
def specRstrip (s : String) : String :=
  ⟨(s.data.reverse.dropWhile isPySpace).reverse⟩

/-- An environment in which the three conditional settings under test
are explicitly set to their false or zero values. -/
def falsyCondEnv : Env := fun n =>
  if n = "CHANGELOG_RETENTION" then some "0"
  else if n = "MAINTENANCE_MODE" then some "False"
  else if n = "MAX_PAGE_SIZE" then some "0"
  else none

/-- An environment giving non-numeric values to three integer-typed
settings. -/
def badIntEnv : Env := fun n =>
  if n = "DB_CONN_MAX_AGE" then some "abc"
  else if n = "LOGIN_TIMEOUT" then some "abc"
  else if n = "EMAIL_PORT" then some "abc"
  else none

/-- A secret store holding one db_password file that is a bare
newline. -/
def wsSecrets : Secrets :=
  fun n => if n = "db_password" then some "\n" else none

/-- The ALLOWED_HOSTS setting: a bare split on spaces of the variable
(default a single star), with no filtering of empty pieces. -/
def ALLOWED_HOSTS (env : Env) : List String :=
  pySplitOnSpace (environGetS env "ALLOWED_HOSTS" "*")

/-- The EXEMPT_VIEW_PERMISSIONS setting: the empty-string default
mapped through _SPLIT_ON_SPACE. -/
def EXEMPT_VIEW_PERMISSIONS (env : Env) : Except String PyVal :=
  _environ_get_and_map env "EXEMPT_VIEW_PERMISSIONS" (.vstr "") (some _SPLIT_ON_SPACE_T)

/-- An environment setting the two list-valued settings under test to
the same input with extra spaces. -/
def hostsEnv : Env := fun n =>
  if n = "ALLOWED_HOSTS" then some "a  b   c"
  else if n = "EXEMPT_VIEW_PERMISSIONS" then some "a  b   c"
  else none

/-! ## Helper lemmas -/

/-- dropWhile removes the whole list when every element satisfies the
predicate. -/
theorem dropWhile_all_nil (p : Char → Bool) :
    ∀ l : List Char, (∀ c ∈ l, p c) → l.dropWhile p = [] := by
  intro l h
  induction l with
  | nil => rfl
  | cons c cs ih =>
    have hc : p c = true := h c (List.mem_cons_self c cs)
    rw [List.dropWhile_cons, if_pos hc]
    exact ih fun x hx => h x (List.mem_cons_of_mem c hx)

/-- Stripping a list of whitespace characters leaves nothing. -/
theorem stripList_all_nil (l : List Char) (h : ∀ c ∈ l, isPySpace c) :
    stripList l = [] := by
  unfold stripList
  rw [dropWhile_all_nil _ l h]
  rfl

/-! ## Claims -/

/-- Claim C1, counterexample: for the secret file content with a
leading space on its first line, the source resolves the db password
with str.strip, removing the leading space as well, so the resolved
value differs from the first line with only trailing whitespace
stripped, even though the secret does take precedence over the
competing DB_PASSWORD environment value. -/
theorem claim1_counterexample :
    cexSecrets "db_password" = some " x\n" ∧
    cexEnv "DB_PASSWORD" = some "envpw" ∧
    specRstrip (readline " x\n") = " x" ∧
    dbPassword cexSecrets cexEnv = some "x" ∧
    dbPassword cexSecrets cexEnv ≠ some (specRstrip (readline " x\n")) := by
  exact ⟨rfl, rfl, by decide, by decide, by decide⟩

/-- Claim C1 as amended: whenever the secret file exists, the resolved
setting is the first line of the file with leading and trailing
whitespace stripped, independent of the default and of any competing
environment variable value. -/
theorem claim1_secret_takes_precedence :
    (∀ (secrets : Secrets) (name : String) (d : Option String) (content : String),
        secrets name = some content → content ≠ "" →
        _read_secret secrets name d = some (pyStrip (readline content))) ∧
    (∀ (secrets : Secrets) (env env2 : Env) (content : String),
        secrets "db_password" = some content → content ≠ "" →
        dbPassword secrets env = dbPassword secrets env2 ∧
        dbPassword secrets env = some (pyStrip (readline content))) := by
  constructor
  · intro secrets name d content h _
    simp [_read_secret, h]
  · intro secrets env env2 content h _
    constructor
    · simp [dbPassword, _read_secret, h]
    · simp [dbPassword, _read_secret, h]

/-- Witness for claim C1 at a concrete secret store. -/
theorem claim1_witness :
    cexSecrets "db_password" = some " x\n" ∧ (" x\n" : String) ≠ "" ∧
    dbPassword cexSecrets cexEnv = some (pyStrip (readline " x\n")) := by
  refine ⟨rfl, by decide, ?_⟩
  exact (claim1_secret_takes_precedence.2 cexSecrets cexEnv emptyEnv " x\n" rfl
    (by decide)).2

/-- Claim C2: with no secret file the password resolves to the
DB_PASSWORD environment value, and with that also absent to the empty
default; DB_HOST falls back to localhost; and with nothing set at all
the whole DATABASE setting resolves to the documented defaults. -/
theorem claim2_env_fallback_and_defaults :
    (∀ (secrets : Secrets) (env : Env) (v : String),
        secrets "db_password" = none → env "DB_PASSWORD" = some v →
        dbPassword secrets env = some v) ∧
    (∀ (secrets : Secrets) (env : Env),
        secrets "db_password" = none → env "DB_PASSWORD" = none →
        dbPassword secrets env = some "") ∧
    (∀ (env : Env) (v : String), env "DB_HOST" = some v → dbHost env = v) ∧
    (∀ (env : Env), env "DB_HOST" = none → dbHost env = "localhost") ∧
    DATABASE noSecrets emptyEnv = .ok dbDefaults := by
  refine ⟨?_, ?_, ?_, ?_, rfl⟩
  · intro secrets env v hs he
    simp [dbPassword, _read_secret, environGetS, hs, he]
  · intro secrets env hs he
    simp [dbPassword, _read_secret, environGetS, hs, he]
  · intro env v h
    simp [dbHost, environGetS, h]
  · intro env h
    simp [dbHost, environGetS, h]

/-- Witness for claim C2 at a concrete environment. -/
theorem claim2_witness :
    noSecrets "db_password" = none ∧ cexEnv "DB_PASSWORD" = some "envpw" ∧
    dbPassword noSecrets cexEnv = some "envpw" ∧
    emptyEnv "DB_HOST" = none ∧ dbHost emptyEnv = "localhost" := by
  exact ⟨rfl, by decide, claim2_env_fallback_and_defaults.1 noSecrets cexEnv "envpw" rfl (by decide),
    rfl, claim2_env_fallback_and_defaults.2.2.2.1 emptyEnv rfl⟩

/-- Claim C3, evaluation at the failing inputs: each conditional
setting variable is present and its value parses to 0 or False, yet
the bare-if truthiness guard leaves the setting unassigned, exactly as
in the unset case. -/
theorem claim3_falsy_values_dropped :
    falsyCondEnv "CHANGELOG_RETENTION" = some "0" ∧
    _environ_get_and_map falsyCondEnv "CHANGELOG_RETENTION" .vnone (some _AS_INT) = .ok (.vint 0) ∧
    CHANGELOG_RETENTION falsyCondEnv = .ok none ∧
    falsyCondEnv "MAINTENANCE_MODE" = some "False" ∧
    _environ_get_and_map falsyCondEnv "MAINTENANCE_MODE" .vnone (some _EQUALS_TRUE_T) = .ok (.vbool false) ∧
    MAINTENANCE_MODE falsyCondEnv = .ok none ∧
    falsyCondEnv "MAX_PAGE_SIZE" = some "0" ∧
    MAX_PAGE_SIZE falsyCondEnv = .ok none ∧
    CHANGELOG_RETENTION emptyEnv = .ok none := by
  exact ⟨by decide, rfl, rfl, by decide, rfl, rfl, by decide, rfl, rfl⟩

/-- Claim C4, counterexample: ALLOWED_HOSTS is a list-valued setting,
but it is resolved with a bare split on spaces and no filter, so the
input with extra spaces resolves to a list holding empty tokens and
not to the list of its non-empty tokens. -/
theorem claim4_counterexample :
    hostsEnv "ALLOWED_HOSTS" = some "a  b   c" ∧
    ALLOWED_HOSTS hostsEnv = ["a", "", "b", "", "", "c"] ∧
    "" ∈ ALLOWED_HOSTS hostsEnv ∧
    ALLOWED_HOSTS hostsEnv ≠ ["a", "b", "c"] := by
  exact ⟨by decide, by decide, by decide, by decide⟩

/-- Claim C4 as amended: every list-valued setting resolved through
the _SPLIT_ON_SPACE transform maps an input of space-delimited tokens
with extra spaces to exactly the list of its non-empty tokens and
never produces an empty token, shown generally for the transform and
on the EXEMPT_VIEW_PERMISSIONS setting; ALLOWED_HOSTS, resolved with a
bare split, is the exception established by the counterexample. -/
theorem claim4_split_never_empty_token :
    _SPLIT_ON_SPACE "a  b   c" = ["a", "b", "c"] ∧
    (∀ s : String, _SPLIT_ON_SPACE s = (pySplitOnSpace s).filter (fun t => t != "")) ∧
    (∀ (s t : String), t ∈ _SPLIT_ON_SPACE s → t ≠ "") ∧
    (∀ (env : Env) (s : String), env "EXEMPT_VIEW_PERMISSIONS" = some s →
        EXEMPT_VIEW_PERMISSIONS env = .ok (.vlist ( _SPLIT_ON_SPACE s))) ∧
    EXEMPT_VIEW_PERMISSIONS hostsEnv = .ok (.vlist ["a", "b", "c"]) := by
  refine ⟨by decide, fun s => rfl, ?_, ?_, rfl⟩
  · intro s t ht
    have h := (List.mem_filter.mp ht).2
    simpa using h
  · intro env s h
    simp [EXEMPT_VIEW_PERMISSIONS, _environ_get_and_map, environGetV, h,
      _SPLIT_ON_SPACE_T]

/-- Witness for claim C4 at concrete inputs. -/
theorem claim4_witness :
    ("a" ∈ _SPLIT_ON_SPACE "a b") ∧ ("a" : String) ≠ "" ∧
    hostsEnv "EXEMPT_VIEW_PERMISSIONS" = some "a  b   c" ∧
    EXEMPT_VIEW_PERMISSIONS hostsEnv = .ok (.vlist ["a", "b", "c"]) := by
  refine ⟨by decide, claim4_split_never_empty_token.2.2.1 "a b" "a" (by decide),
    by decide, ?_⟩
  rw [claim4_split_never_empty_token.2.2.2.1 hostsEnv "a  b   c" (by decide)]
  decide

/-- Claim C5: the boolean transform accepts the word true in any
letter case and maps every other string to false. -/
theorem claim5_equals_true_parse :
    (∀ s : String, _EQUALS_TRUE s = true ↔ pyLower s = "true") ∧
    (∀ s : String, pyLower s ≠ "true" → _EQUALS_TRUE s = false) ∧
    _EQUALS_TRUE "true" = true ∧ _EQUALS_TRUE "True" = true ∧
    _EQUALS_TRUE "TRUE" = true ∧ _EQUALS_TRUE "tRuE" = true ∧
    _EQUALS_TRUE "1" = false ∧ _EQUALS_TRUE "yes" = false ∧
    _EQUALS_TRUE "" = false := by
  refine ⟨?_, ?_, by decide, by decide, by decide, by decide, by decide,
    by decide, by decide⟩
  · intro s
    simp [_EQUALS_TRUE]
  · intro s h
    simpa [_EQUALS_TRUE] using h

/-- Witness for claim C5 at a concrete non-true string. -/
theorem claim5_witness :
    pyLower "yes" ≠ "true" ∧ _EQUALS_TRUE "yes" = false := by
  exact ⟨by decide, claim5_equals_true_parse.2.1 "yes" (by decide)⟩

/-- Claim C6: with the variable unset and an absent default the mapper
returns the absent sentinel without consulting the transform; with the
variable set, or the default present, the transform is applied to the
resolved raw value; without a transform the raw value is returned
unchanged. -/
theorem claim6_environ_get_and_map_contract :
    (∀ (env : Env) (name : String) (f : PyVal → Except String PyVal),
        env name = none →
        _environ_get_and_map env name .vnone (some f) = .ok .vnone) ∧
    (∀ (env : Env) (name v : String) (default : PyVal)
        (f : PyVal → Except String PyVal),
        env name = some v →
        _environ_get_and_map env name default (some f) = f (.vstr v)) ∧
    (∀ (env : Env) (name : String) (default : PyVal)
        (f : PyVal → Except String PyVal),
        env name = none → default ≠ .vnone →
        _environ_get_and_map env name default (some f) = f default) ∧
    (∀ (env : Env) (name : String) (default : PyVal),
        _environ_get_and_map env name default none = .ok (environGetV env name default)) := by
  refine ⟨?_, ?_, ?_, ?_⟩
  · intro env name f h
    simp [_environ_get_and_map, environGetV, h]
  · intro env name v default f h
    simp [_environ_get_and_map, environGetV, h]
  · intro env name default f h hd
    simp [_environ_get_and_map, environGetV, h, hd]
  · intro env name default
    by_cases h : environGetV env name default = PyVal.vnone
    · simp [_environ_get_and_map, h]
    · simp [_environ_get_and_map, h]

/-- Witness for claim C6 at concrete environments, with two distinct
transforms showing the transform is not consulted in the absent
case. -/
theorem claim6_witness :
    emptyEnv "DEBUG" = none ∧
    _environ_get_and_map emptyEnv "DEBUG" .vnone (some _AS_INT) = .ok .vnone ∧
    _environ_get_and_map emptyEnv "DEBUG" .vnone (some _EQUALS_TRUE_T) = .ok .vnone ∧
    cexEnv "DB_PASSWORD" = some "envpw" ∧
    _environ_get_and_map cexEnv "DB_PASSWORD" .vnone (some _SPLIT_ON_SPACE_T) = _SPLIT_ON_SPACE_T (.vstr "envpw") ∧
    _environ_get_and_map emptyEnv "DEBUG" (.vstr "False") (some _EQUALS_TRUE_T) = _EQUALS_TRUE_T (.vstr "False") ∧
    _environ_get_and_map emptyEnv "DEBUG" (.vstr "False") none = .ok (environGetV emptyEnv "DEBUG" (.vstr "False")) := by
  exact ⟨rfl,
    claim6_environ_get_and_map_contract.1 emptyEnv "DEBUG" _AS_INT rfl,
    claim6_environ_get_and_map_contract.1 emptyEnv "DEBUG" _EQUALS_TRUE_T rfl,
    by decide,
    claim6_environ_get_and_map_contract.2.1 cexEnv "DB_PASSWORD" "envpw" .vnone _SPLIT_ON_SPACE_T (by decide),
    claim6_environ_get_and_map_contract.2.2.1 emptyEnv "DEBUG" (.vstr "False") _EQUALS_TRUE_T rfl (by decide),
    claim6_environ_get_and_map_contract.2.2.2 emptyEnv "DEBUG" (.vstr "False")⟩

/-- Claim C7: a missing secret file yields the provided default
unchanged, and a missing environment variable yields its default, in
both helpers; both are total functions, so no error is raised. -/
theorem claim7_missing_source_falls_back :
    (∀ (secrets : Secrets) (name : String) (default : Option String),
        secrets name = none → _read_secret secrets name default = default) ∧
    (∀ (env : Env) (name : String) (default : PyVal),
        env name = none → _environ_get_and_map env name default none = .ok default) ∧
    (∀ (env : Env) (name : String) (default : String),
        env name = none → environGetS env name default = default) := by
  refine ⟨?_, ?_, ?_⟩
  · intro secrets name d h
    simp [_read_secret, h]
  · intro env name d h
    by_cases hd : d = PyVal.vnone
    · simp [_environ_get_and_map, environGetV, h, hd]
    · simp [_environ_get_and_map, environGetV, h, hd]
  · intro env name d h
    simp [environGetS, h]

/-- Witness for claim C7 at a concrete missing secret and variable. -/
theorem claim7_witness :
    noSecrets "db_password" = none ∧
    _read_secret noSecrets "db_password" (some "fallback") = some "fallback" ∧
    emptyEnv "DB_HOST" = none ∧
    _environ_get_and_map emptyEnv "DB_HOST" (.vstr "localhost") none = .ok (.vstr "localhost") ∧
    environGetS emptyEnv "DB_HOST" "localhost" = "localhost" := by
  exact ⟨rfl,
    claim7_missing_source_falls_back.1 noSecrets "db_password" (some "fallback") rfl,
    rfl,
    claim7_missing_source_falls_back.2.1 emptyEnv "DB_HOST" (.vstr "localhost") rfl,
    claim7_missing_source_falls_back.2.2 emptyEnv "DB_HOST" "localhost" rfl⟩

/-- Claim C8: a non-numeric raw string for an integer-typed setting
makes the whole resolution fail with the int parsing error; no value is
produced and nothing is coerced to a default. -/
theorem claim8_nonnumeric_int_fails :
    ∀ (secrets : Secrets) (env : Env) (s : String),
      pyParseInt s = none →
      ((env "DB_CONN_MAX_AGE" = some s → DATABASE secrets env = .error "ValueError") ∧
       (env "LOGIN_TIMEOUT" = some s → LOGIN_TIMEOUT env = .error "ValueError") ∧
       (env "EMAIL_PORT" = some s → EMAIL secrets env = .error "ValueError")) := by
  intro secrets env s hp
  have key : ∀ (name : String) (d : PyVal), env name = some s →
      _environ_get_and_map env name d (some _AS_INT) = .error "ValueError" := by
    intro name d h
    simp [_environ_get_and_map, environGetV, h, _AS_INT, hp]
  refine ⟨?_, ?_, ?_⟩
  · intro h
    unfold DATABASE
    rw [key _ _ h]
    rfl
  · intro h
    unfold LOGIN_TIMEOUT
    exact key _ _ h
  · intro h
    unfold EMAIL
    rw [key _ _ h]
    rfl

/-- Witness for claim C8 at the concrete non-numeric value abc. -/
theorem claim8_witness :
    pyParseInt "abc" = none ∧
    badIntEnv "DB_CONN_MAX_AGE" = some "abc" ∧
    DATABASE noSecrets badIntEnv = .error "ValueError" ∧
    LOGIN_TIMEOUT badIntEnv = .error "ValueError" ∧
    EMAIL noSecrets badIntEnv = .error "ValueError" := by
  have h := claim8_nonnumeric_int_fails noSecrets badIntEnv "abc" (by decide)
  exact ⟨by decide, by decide, h.1 (by decide), h.2.1 (by decide), h.2.2 (by decide)⟩

/-- Claim C9: with neither variable set the tasks profile database
index defaults to 0 and the caching profile to 1, so the two profiles
differ; the full REDIS assembly at an empty environment shows the same
distinct indices. -/
theorem claim9_redis_distinct_defaults :
    (∀ env : Env, env "REDIS_DATABASE" = none →
        redisTasksDatabase env = .ok (.vint 0)) ∧
    (∀ env : Env, env "REDIS_CACHE_DATABASE" = none →
        redisCachingDatabase env = .ok (.vint 1)) ∧
    (∀ env : Env, env "REDIS_DATABASE" = none → env "REDIS_CACHE_DATABASE" = none →
        redisTasksDatabase env ≠ redisCachingDatabase env) ∧
    (∃ r : RedisCfg, REDIS noSecrets emptyEnv = .ok r ∧
        r.tasks.DATABASE = .vint 0 ∧ r.caching.DATABASE = .vint 1 ∧
        r.tasks.DATABASE ≠ r.caching.DATABASE) := by
  have h1 : ∀ env : Env, env "REDIS_DATABASE" = none →
      redisTasksDatabase env = .ok (.vint 0) := by
    intro env h
    unfold redisTasksDatabase _environ_get_and_map environGetV
    rw [h]
    rfl
  have h2 : ∀ env : Env, env "REDIS_CACHE_DATABASE" = none →
      redisCachingDatabase env = .ok (.vint 1) := by
    intro env h
    unfold redisCachingDatabase _environ_get_and_map environGetV
    rw [h]
    rfl
  refine ⟨h1, h2, ?_, ?_⟩
  · intro env ha hb
    rw [h1 env ha, h2 env hb]
    decide
  · exact ⟨_, rfl, rfl, rfl, by decide⟩

/-- Witness for claim C9 at the empty environment. -/
theorem claim9_witness :
    emptyEnv "REDIS_DATABASE" = none ∧
    redisTasksDatabase emptyEnv = .ok (.vint 0) ∧
    redisCachingDatabase emptyEnv = .ok (.vint 1) ∧
    redisTasksDatabase emptyEnv ≠ redisCachingDatabase emptyEnv := by
  exact ⟨rfl,
    claim9_redis_distinct_defaults.1 emptyEnv rfl,
    claim9_redis_distinct_defaults.2.1 emptyEnv rfl,
    claim9_redis_distinct_defaults.2.2.1 emptyEnv rfl rfl⟩

/-- Claim C10: a secret file that exists but whose first line is empty
or all whitespace resolves to the empty string, never to the provided
default. -/
theorem claim10_empty_secret_yields_empty_string :
    ∀ (secrets : Secrets) (name : String) (d : Option String) (content : String),
      secrets name = some content →
      (∀ c ∈ (readline content).data, isPySpace c) →
      _read_secret secrets name d = some "" := by
  intro secrets name d content hsec hws
  have h0 : pyStrip (readline content) = "" := by
    unfold pyStrip
    rw [stripList_all_nil _ hws]
  simp [_read_secret, hsec, h0]

/-- Witness for claim C10 at a secret file holding a bare newline,
with a non-empty competing default. -/
theorem claim10_witness :
    wsSecrets "db_password" = some "\n" ∧
    (∀ c ∈ (readline "\n").data, isPySpace c) ∧
    _read_secret wsSecrets "db_password" (some "fromEnv") = some "" := by
  exact ⟨by decide, by decide,
    claim10_empty_secret_yields_empty_string wsSecrets "db_password"
      (some "fromEnv") "\n" (by decide) (by decide)⟩
